import Mathlib

/-!
Verification of the Resource Admission & Rate Governor of ACE-Step-1.5
against its specification.

The development shallowly embeds the decision logic of
`src/acestep/memory_manager.py` and `src/acestep/security.py`:
memory quantities (GB) and POSIX timestamps (seconds) become rationals,
Python lists of timestamps become `List ℚ`, the sessions dictionary
becomes an association list, and the side-effecting collaborators
(the memory probe and the emergency cleanup) become explicit parameters
carrying the values they would report.
-/

namespace ACEStep

/-- Module constant `MIN_FREE_RAM_GB = 5.0` of `memory_manager.py`. -/
def MIN_FREE_RAM_GB : ℚ := 5

/-- Embedding of the `MemoryConfig` dataclass (field defaults included).
`max_duration_seconds` is an integer in the source; ℚ carries it exactly. -/
structure MemoryConfig where
  max_memory_gb : ℚ := 4
  min_free_ram_gb : ℚ := MIN_FREE_RAM_GB
  gpu_memory_fraction : ℚ := 9/10
  max_duration_seconds : ℚ := 180
  max_batch_size : ℤ := 1
  offload_to_cpu : Bool := true
  offload_dit_to_cpu : Bool := true
  enable_lm : Bool := false
  aggressive_gc : Bool := true
  clear_cuda_cache : Bool := true
  pre_check_memory : Bool := true
  warning_threshold_gb : ℚ := 6
  critical_threshold_gb : ℚ := 4
deriving DecidableEq, Repr

/-- Embedding of `MemoryConfig.__post_init__`: the construction-time
validation pass.  `total_ram` and `available_ram` are the values the
memory probe reports at construction time. -/
def MemoryConfig.post_init (c : MemoryConfig) (total_ram available_ram : ℚ) :
    MemoryConfig :=
  let max_allowed := total_ram - c.min_free_ram_gb
  let c1 := if max_allowed < c.max_memory_gb then
      { c with max_memory_gb := max_allowed } else c
  let c2 := if available_ram < c1.warning_threshold_gb then
      { c1 with max_memory_gb := min c1.max_memory_gb 2,
                max_duration_seconds := min c1.max_duration_seconds 60,
                enable_lm := false }
    else c1
  { c2 with max_batch_size := 1, offload_to_cpu := true,
            offload_dit_to_cpu := true }

/-- The default configuration (dataclass defaults, no override). -/
def defaultMemoryConfig : MemoryConfig := {}

/-- Structured denial/allowance reasons of `MemoryManager.can_generate`,
one constructor per returned message. -/
inductive AdmitReason
| floorViolation (available floor : ℚ)
| wouldDropBelowFloor (estimated available floor : ℚ)
| cleanupPerformed
| criticalShortage
| lowMemoryWarning (available : ℚ)
| ok
deriving DecidableEq, Repr

/-- Embedding of `MemoryManager.can_generate`.

`available` is `ram_available_gb` of the snapshot queried at entry.
`cleanupAvailable` is the available memory the snapshot re-queried inside
`emergency_memory_cleanup` reports; the cleanup reports success exactly
when that value is at least the module constant `MIN_FREE_RAM_GB`
(not the configured floor). -/
def MemoryManager.can_generate (cfg : MemoryConfig)
    (available estimated_memory_gb cleanupAvailable : ℚ) :
    Bool × AdmitReason :=
  if available < cfg.min_free_ram_gb then
    (false, AdmitReason.floorViolation available cfg.min_free_ram_gb)
  else
    let remaining_after := available - estimated_memory_gb
    if remaining_after < cfg.min_free_ram_gb then
      (false, AdmitReason.wouldDropBelowFloor estimated_memory_gb available
        cfg.min_free_ram_gb)
    else if available < cfg.critical_threshold_gb then
      if MIN_FREE_RAM_GB ≤ cleanupAvailable then
        (true, AdmitReason.cleanupPerformed)
      else
        (false, AdmitReason.criticalShortage)
    else if available < cfg.warning_threshold_gb then
      (true, AdmitReason.lowMemoryWarning available)
    else
      (true, AdmitReason.ok)

/-- C1: whenever the snapshot's available memory is strictly below the
configured floor, `can_generate` denies for every estimated cost (and
every cleanup outcome), and the denial reason is the floor violation
naming the configured floor. -/
theorem can_generate_denies_below_floor (cfg : MemoryConfig)
    (available estimated cleanupAvail : ℚ)
    (h : available < cfg.min_free_ram_gb) :
    MemoryManager.can_generate cfg available estimated cleanupAvail =
      (false, AdmitReason.floorViolation available cfg.min_free_ram_gb) := by
  unfold MemoryManager.can_generate
  rw [if_pos h]

/-- Witness for C1, the spec's concrete scenario A: floor = 5 GB,
available = 4.2 GB, estimated cost 2.0 GB is denied with the
floor-violation reason. -/
theorem can_generate_denies_below_floor_witness :
    (21/5 : ℚ) < defaultMemoryConfig.min_free_ram_gb ∧
    MemoryManager.can_generate defaultMemoryConfig (21/5) 2 0 =
      (false, AdmitReason.floorViolation (21/5)
        defaultMemoryConfig.min_free_ram_gb) :=
  ⟨by norm_num [defaultMemoryConfig, MIN_FREE_RAM_GB],
   can_generate_denies_below_floor defaultMemoryConfig (21/5) 2 0
     (by norm_num [defaultMemoryConfig, MIN_FREE_RAM_GB])⟩

/-- C2 (amended): with `available ≥ floor` and `available − estimated ≥ floor`,
`can_generate` allows provided additionally either `available` is at least the
configured critical threshold, or the emergency cleanup succeeds (the
re-queried available memory is at least the module constant
`MIN_FREE_RAM_GB`).  For configurations with `critical_threshold ≤ floor`
(the defaults) the extra proviso is automatic. -/
theorem can_generate_headroom_allows_amended (cfg : MemoryConfig)
    (available estimated cleanupAvail : ℚ)
    (h1 : cfg.min_free_ram_gb ≤ available)
    (h2 : cfg.min_free_ram_gb ≤ available - estimated)
    (h3 : cfg.critical_threshold_gb ≤ available ∨
      MIN_FREE_RAM_GB ≤ cleanupAvail) :
    (MemoryManager.can_generate cfg available estimated cleanupAvail).1 =
      true := by
  unfold MemoryManager.can_generate
  rw [if_neg (not_lt.mpr h1), if_neg (not_lt.mpr h2)]
  split_ifs with hcrit hclean hwarn
  · rfl
  · rcases h3 with h3 | h3
    · exact absurd hcrit (not_lt.mpr h3)
    · exact absurd h3 hclean
  · rfl
  · rfl

/-- Witness for C2 (amended), the spec's concrete scenario B:
floor = 5 GB, available = 9 GB, estimated = 2 GB is allowed. -/
theorem can_generate_headroom_allows_amended_witness :
    defaultMemoryConfig.min_free_ram_gb ≤ (9 : ℚ) ∧
    defaultMemoryConfig.min_free_ram_gb ≤ (9 : ℚ) - 2 ∧
    (MemoryManager.can_generate defaultMemoryConfig 9 2 0).1 = true :=
  ⟨by norm_num [defaultMemoryConfig, MIN_FREE_RAM_GB],
   by norm_num [defaultMemoryConfig, MIN_FREE_RAM_GB],
   can_generate_headroom_allows_amended defaultMemoryConfig 9 2 0
     (by norm_num [defaultMemoryConfig, MIN_FREE_RAM_GB])
     (by norm_num [defaultMemoryConfig, MIN_FREE_RAM_GB])
     (Or.inl (by norm_num [defaultMemoryConfig]))⟩

/-- A configuration whose critical threshold exceeds its floor, as produced
by `MemoryConfig.__post_init__` from explicit dataclass arguments with a
snapshot reporting 100 GB total / 50 GB available. -/
def cfgCriticalAboveFloor : MemoryConfig :=
  MemoryConfig.post_init
    { min_free_ram_gb := 3, warning_threshold_gb := 2,
      critical_threshold_gb := 10 } 100 50

/-- Counterexample to C2 as stated: with floor 3 GB, critical threshold
10 GB, available 5 GB and estimated cost 2 GB, both headroom conditions of
the claim hold, yet `can_generate` denies when the emergency cleanup fails
(re-queried available 0 GB). -/
theorem can_generate_headroom_counterexample :
    cfgCriticalAboveFloor.min_free_ram_gb ≤ (5 : ℚ) ∧
    cfgCriticalAboveFloor.min_free_ram_gb ≤ (5 : ℚ) - 2 ∧
    (MemoryManager.can_generate cfgCriticalAboveFloor 5 2 0).1 = false := by
  refine ⟨?_, ?_, ?_⟩ <;>
    norm_num [cfgCriticalAboveFloor, MemoryConfig.post_init,
      MemoryManager.can_generate, MIN_FREE_RAM_GB]

/-- Warnings appended by `validate_generation_params`, one constructor per
message. -/
inductive PWarn
| durationClamped (old new_limit : ℚ)
| batchClamped (old : ℤ)
deriving DecidableEq, Repr

/-- Embedding of `MemoryManager.validate_generation_params`.
`available` is `ram_available_gb` of the snapshot queried at entry. -/
def MemoryManager.validate_generation_params (cfg : MemoryConfig)
    (available duration : ℚ) (batch_size : ℤ) : ℚ × ℤ × List PWarn :=
  let max_duration : ℚ :=
    if available < 6 then 60
    else if available < 8 then 120
    else cfg.max_duration_seconds
  let duration2 : ℚ := if max_duration < duration then max_duration
    else duration
  let durWarns : List PWarn := if max_duration < duration then
      [ PWarn.durationClamped duration max_duration ]
    else []
  let batch2 : ℤ := if 1 < batch_size then 1 else batch_size
  let batchWarns : List PWarn := if 1 < batch_size then
      [ PWarn.batchClamped batch_size ]
    else []
  (duration2, batch2, durWarns ++ batchWarns)

/-- A warning list produced by a single conditional append holds a given
warning only if it is that branch's warning and the condition held. -/
theorem pwarn_mem_ite_singleton {c : Prop} [Decidable c] {w x : PWarn}
    (h : x ∈ (if c then [ w ] else ([] : List PWarn))) : x = w ∧ c := by
  split at h
  · exact ⟨List.mem_singleton.mp h, by assumption⟩
  · exact absurd h (List.not_mem_nil x)

/-- Counterexample to C3 as stated: `validate_generation_params` does not
return batch size 1 for every input — the input 0 is passed through
unchanged (the source clamps only inputs greater than 1). -/
theorem validate_params_batch_counterexample :
    (MemoryManager.validate_generation_params defaultMemoryConfig 9 30
      0).2.1 = 0 ∧ (0 : ℤ) ≠ 1 := by
  constructor
  · norm_num [MemoryManager.validate_generation_params, defaultMemoryConfig]
  · decide

/-- C3 (amended): `validate_generation_params` clamps the batch size from
above to 1 — every input ≥ 1 comes back as exactly 1, a warning is
appended exactly when the input exceeded 1, and inputs ≤ 1 pass through
unchanged — and `MemoryConfig.__post_init__` ends with
`max_batch_size = 1` for every configuration input and snapshot. -/
theorem batch_size_policy_spec (cfg : MemoryConfig)
    (available duration : ℚ) (batch_size : ℤ) :
    (1 ≤ batch_size →
      (MemoryManager.validate_generation_params cfg available duration
        batch_size).2.1 = 1) ∧
    (batch_size ≤ 1 →
      (MemoryManager.validate_generation_params cfg available duration
        batch_size).2.1 = batch_size) ∧
    (PWarn.batchClamped batch_size ∈
        (MemoryManager.validate_generation_params cfg available duration
          batch_size).2.2 ↔ 1 < batch_size) ∧
    (∀ (c : MemoryConfig) (total_ram available_ram : ℚ),
      (MemoryConfig.post_init c total_ram available_ram).max_batch_size =
        1) := by
  refine ⟨?_, ?_, ?_, ?_⟩
  · intro h
    show (if 1 < batch_size then (1 : ℤ) else batch_size) = 1
    rcases lt_or_eq_of_le h with h1 | h1
    · rw [if_pos h1]
    · have hn : ¬ (1 < batch_size) := by omega
      rw [if_neg hn, ← h1]
  · intro h
    show (if 1 < batch_size then (1 : ℤ) else batch_size) = batch_size
    rw [if_neg (not_lt.mpr h)]
  · constructor
    · intro hmem
      simp only [MemoryManager.validate_generation_params,
        List.mem_append] at hmem
      rcases hmem with hmem | hmem
      · exact absurd (pwarn_mem_ite_singleton hmem).1
          (fun heq => PWarn.noConfusion heq)
      · exact (pwarn_mem_ite_singleton hmem).2
    · intro h
      simp only [MemoryManager.validate_generation_params, List.mem_append]
      refine Or.inr ?_
      rw [if_pos h]
      exact List.mem_singleton.mpr rfl
  · intro c total_ram available_ram
    unfold MemoryConfig.post_init
    rfl

/-- Witness for C3 (amended): input batch size 4 is clamped to 1 with a
warning; `__post_init__` pins `max_batch_size` to 1 even when the
dataclass argument requested 8. -/
theorem batch_size_policy_spec_witness :
    (MemoryManager.validate_generation_params defaultMemoryConfig 9 30
      4).2.1 = 1 ∧
    (PWarn.batchClamped 4 ∈
      (MemoryManager.validate_generation_params defaultMemoryConfig 9 30
        4).2.2) ∧
    (MemoryConfig.post_init { max_batch_size := 8 } 16 12).max_batch_size =
      1 :=
  ⟨(batch_size_policy_spec defaultMemoryConfig 9 30 4).1 (by decide),
   (batch_size_policy_spec defaultMemoryConfig 9 30 4).2.2.1.mpr
     (by decide),
   (batch_size_policy_spec defaultMemoryConfig 9 30 4).2.2.2
     { max_batch_size := 8 } 16 12⟩

/-- The `MemoryManager` instance state relevant to cleanup accounting:
the `_generation_count` counter. -/
structure MMState where
  generation_count : Nat
deriving DecidableEq, Repr

/-- Embedding of `MemoryManager.force_memory_cleanup`.  Returns the updated
manager state and whether the periodic deep cleanup
(`emergency_memory_cleanup`) was triggered.  With `aggressive_gc` unset the
routine returns immediately without touching the counter. -/
def MemoryManager.force_memory_cleanup (cfg : MemoryConfig) (s : MMState) :
    MMState × Bool :=
  if cfg.aggressive_gc = false then (s, false)
  else
    let c := s.generation_count + 1
    (⟨c⟩, c % 5 == 0)

/-- Outcome of one entry into `generation_context`. -/
inductive GenResult (α ε : Type)
| ok (a : α)
| bodyError (e : ε)
| memoryError (reason : AdmitReason)
deriving DecidableEq, Repr

/-- Trace of one entry into `generation_context`: the outcome, the final
manager state, whether the protected region was entered, how many times
`force_memory_cleanup` was invoked, and whether the periodic deep cleanup
ran. -/
structure GenTrace (α ε : Type) where
  result : GenResult α ε
  finalState : MMState
  bodyEntered : Bool
  cleanupCalls : Nat
  deepCleanupRan : Bool
deriving DecidableEq, Repr

/-- Embedding of `MemoryManager.generation_context`.  The caller's
protected region is abstracted as `body`, which either completes normally
with a value or raises an exception; the `try/finally` of the source makes
`force_memory_cleanup` run on both exits. -/
def MemoryManager.generation_context {α ε : Type} (cfg : MemoryConfig)
    (available estimated cleanupAvail : ℚ) (body : Except ε α)
    (s : MMState) : GenTrace α ε :=
  let check := MemoryManager.can_generate cfg available estimated
    cleanupAvail
  if check.1 = true then
    let fc := MemoryManager.force_memory_cleanup cfg s
    match body with
    | Except.ok a =>
      ⟨GenResult.ok a, fc.1, true, 1, fc.2⟩
    | Except.error e =>
      ⟨GenResult.bodyError e, fc.1, true, 1, fc.2⟩
  else
    ⟨GenResult.memoryError check.2, s, false, 0, false⟩

/-- C4: if admission is denied, `generation_context` raises the
resource-unavailable failure carrying the denial reason, never enters the
protected region, and leaves the state unchanged with no cleanup; if
admission is allowed, the protected region runs and `force_memory_cleanup`
is invoked exactly once on both exit paths (normal completion and
exception), with the deep cleanup running exactly when the governor's
generation counter advanced to a multiple of 5. -/
theorem generation_context_spec {α ε : Type} (cfg : MemoryConfig)
    (available estimated cleanupAvail : ℚ) (body : Except ε α)
    (s : MMState) :
    ((MemoryManager.can_generate cfg available estimated cleanupAvail).1 =
        false →
      (MemoryManager.generation_context cfg available estimated
          cleanupAvail body s) =
        ⟨GenResult.memoryError
            (MemoryManager.can_generate cfg available estimated
              cleanupAvail).2, s, false, 0, false⟩) ∧
    ((MemoryManager.can_generate cfg available estimated cleanupAvail).1 =
        true →
      (MemoryManager.generation_context cfg available estimated
          cleanupAvail body s).bodyEntered = true ∧
      (MemoryManager.generation_context cfg available estimated
          cleanupAvail body s).cleanupCalls = 1 ∧
      ((MemoryManager.generation_context cfg available estimated
          cleanupAvail body s).deepCleanupRan = true ↔
        ((MemoryManager.generation_context cfg available estimated
            cleanupAvail body s).finalState.generation_count ≠
            s.generation_count ∧
          (MemoryManager.generation_context cfg available estimated
            cleanupAvail body s).finalState.generation_count % 5 = 0)) ∧
      (∀ a, body = Except.ok a →
        (MemoryManager.generation_context cfg available estimated
          cleanupAvail body s).result = GenResult.ok a) ∧
      (∀ e, body = Except.error e →
        (MemoryManager.generation_context cfg available estimated
          cleanupAvail body s).result = GenResult.bodyError e)) := by
  unfold MemoryManager.generation_context
  dsimp only
  constructor
  · intro h
    rw [h]
    simp
  · intro h
    rw [h]
    simp only [if_pos rfl]
    have hdeep :
        (MemoryManager.force_memory_cleanup cfg s).2 = true ↔
          ((MemoryManager.force_memory_cleanup cfg s).1.generation_count ≠
              s.generation_count ∧
            (MemoryManager.force_memory_cleanup cfg
              s).1.generation_count % 5 = 0) := by
      unfold MemoryManager.force_memory_cleanup
      split
      · simp
      · simp only [beq_iff_eq]
        constructor
        · intro hc
          exact ⟨Nat.succ_ne_self s.generation_count, hc⟩
        · intro hc
          exact hc.2
    cases body with
    | ok a =>
      refine ⟨rfl, rfl, hdeep, ?_, ?_⟩
      · intro a' ha
        cases ha
        rfl
      · intro e he
        cases he
    | error e =>
      refine ⟨rfl, rfl, hdeep, ?_, ?_⟩
      · intro a' ha
        cases ha
      · intro e' he
        cases he
        rfl

/-- Witness for C4: with the default configuration, 9 GB available and a
2 GB estimate, admission is allowed, the protected region is entered, and
cleanup is invoked exactly once; entering with counter 4 advances it to 5
and triggers the periodic deep cleanup. -/
theorem generation_context_spec_witness :
    (MemoryManager.generation_context defaultMemoryConfig 9 2 0
        (Except.ok (0 : Nat)) ⟨4⟩ : GenTrace Nat Nat).cleanupCalls = 1 ∧
    (MemoryManager.generation_context defaultMemoryConfig 9 2 0
        (Except.ok (0 : Nat)) ⟨4⟩ : GenTrace Nat Nat).bodyEntered = true :=
  ⟨((generation_context_spec defaultMemoryConfig 9 2 0
      (Except.ok (0 : Nat)) ⟨4⟩).2 (by norm_num [MemoryManager.can_generate,
        defaultMemoryConfig, MIN_FREE_RAM_GB])).2.1,
   ((generation_context_spec defaultMemoryConfig 9 2 0
      (Except.ok (0 : Nat)) ⟨4⟩).2 (by norm_num [MemoryManager.can_generate,
        defaultMemoryConfig, MIN_FREE_RAM_GB])).1⟩

/-! Embedding of `src/acestep/security.py`. -/

/-- The empty string, the falsy `str` value of the source's truthiness
tests. -/
def emptyStr : String := ""

/-- Embedding of the `Session` dataclass. -/
structure Session where
  session_id : String
  username : String
  ip_address : String
  created_at : ℚ
  last_activity : ℚ
  generation_count : Nat := 0
deriving DecidableEq, Repr

/-- Dictionary lookup on the association-list model of
`SessionManager._sessions`. -/
def alookup (k : String) : List (String × Session) → Option Session
| [] => none
| p :: ps => if p.1 = k then some p.2 else alookup k ps

/-- Embedding of `SessionManager.validate_session`.  The sessions
dictionary is an association list; `now` is the value `time.time()`
returns.  The result pairs the returned value with the dictionary after
the call (eviction deletes the key, a successful validation stores the
touched session). -/
def SessionManager.validate_session (timeout_seconds : ℚ)
    (sessions : List (String × Session)) (session_id : String) (now : ℚ) :
    Option Session × List (String × Session) :=
  if session_id = emptyStr then (none, sessions)
  else
    match alookup session_id sessions with
    | none => (none, sessions)
    | some s =>
      if 0 < timeout_seconds ∧ timeout_seconds < now - s.last_activity then
        (none, sessions.filter (fun p => decide (p.1 ≠ session_id)))
      else
        let s2 : Session := { s with last_activity := now }
        (some s2,
          sessions.map (fun p => if p.1 = session_id then (session_id, s2)
            else p))

/-- After deleting a key from the dictionary, looking it up yields
nothing. -/
theorem alookup_filter_ne (k : String) (l : List (String × Session)) :
    alookup k (l.filter (fun p => decide (p.1 ≠ k))) = none := by
  induction l with
  | nil => rfl
  | cons p ps ih =>
    simp only [List.filter_cons]
    by_cases hp : p.1 = k
    · rw [if_neg (by simp [hp])]
      exact ih
    · rw [if_pos (by simp [hp])]
      simp only [alookup, if_neg hp]
      exact ih

/-- Overwriting every binding of a present key leaves that key bound to
the new value. -/
theorem alookup_map_update (k : String) (v2 : Session)
    (l : List (String × Session)) (h : (alookup k l).isSome) :
    alookup k (l.map (fun p => if p.1 = k then (k, v2) else p)) =
      some v2 := by
  induction l with
  | nil => simp [alookup] at h
  | cons p ps ih =>
    by_cases hp : p.1 = k
    · rw [List.map_cons, if_pos hp]
      simp [alookup]
    · simp only [alookup, if_neg hp] at h
      rw [List.map_cons, if_neg hp]
      simp only [alookup, if_neg hp]
      exact ih h

/-- Computation rule for `validate_session` on a present, nonempty id. -/
theorem validate_session_eq_of_lookup (timeout : ℚ)
    (sessions : List (String × Session)) (sid : String) (now : ℚ)
    (s : Session) (hsid : ¬ sid = emptyStr)
    (hs : alookup sid sessions = some s) :
    SessionManager.validate_session timeout sessions sid now =
      if 0 < timeout ∧ timeout < now - s.last_activity then
        (none, sessions.filter (fun p => decide (p.1 ≠ sid)))
      else
        (some { s with last_activity := now },
          sessions.map (fun p =>
            if p.1 = sid then (sid, { s with last_activity := now })
            else p)) := by
  unfold SessionManager.validate_session
  rw [if_neg hsid, hs]

/-- Computation rule for `validate_session` on an unknown, nonempty id. -/
theorem validate_session_eq_of_lookup_none (timeout : ℚ)
    (sessions : List (String × Session)) (sid : String) (now : ℚ)
    (hsid : ¬ sid = emptyStr) (hs : alookup sid sessions = none) :
    SessionManager.validate_session timeout sessions sid now =
      (none, sessions) := by
  unfold SessionManager.validate_session
  rw [if_neg hsid, hs]

/-- C5: `validate_session` returns the session exactly when the id is a
key of the (reachable, hence empty-key-free) registry and
`now − last_activity ≤ timeout`, with `timeout ≤ 0` meaning the session
never expires; a returned session has `last_activity` updated to `now`
(also in the stored registry), and an expired session is evicted with
nothing returned. -/
theorem validate_session_spec (timeout : ℚ)
    (sessions : List (String × Session)) (sid : String) (now : ℚ)
    (hinv : alookup emptyStr sessions = none) :
    ((SessionManager.validate_session timeout sessions sid now).1.isSome ↔
      ∃ s, alookup sid sessions = some s ∧
        (timeout ≤ 0 ∨ now - s.last_activity ≤ timeout)) ∧
    (∀ s, alookup sid sessions = some s →
      (timeout ≤ 0 ∨ now - s.last_activity ≤ timeout) →
      (SessionManager.validate_session timeout sessions sid now).1 =
          some { s with last_activity := now } ∧
        alookup sid
            (SessionManager.validate_session timeout sessions sid now).2 =
          some { s with last_activity := now }) ∧
    (∀ s, alookup sid sessions = some s → 0 < timeout →
      timeout < now - s.last_activity →
      (SessionManager.validate_session timeout sessions sid now).1 =
          none ∧
        alookup sid
            (SessionManager.validate_session timeout sessions sid now).2 =
          none) ∧
    (alookup sid sessions = none →
      SessionManager.validate_session timeout sessions sid now =
        (none, sessions)) := by
  by_cases hsid : sid = emptyStr
  · subst hsid
    refine ⟨?_, ?_, ?_, ?_⟩
    · simp [SessionManager.validate_session, hinv]
    · intro s hs
      rw [hinv] at hs
      cases hs
    · intro s hs
      rw [hinv] at hs
      cases hs
    · intro _
      simp [SessionManager.validate_session]
  · cases hl : alookup sid sessions with
    | none =>
      have he := validate_session_eq_of_lookup_none timeout sessions sid
        now hsid hl
      refine ⟨?_, ?_, ?_, ?_⟩
      · rw [he]
        simp
      · intro s hs
        exact Option.noConfusion hs
      · intro s hs
        exact Option.noConfusion hs
      · intro _
        exact he
    | some s =>
      have he := validate_session_eq_of_lookup timeout sessions sid now s
        hsid hl
      refine ⟨?_, ?_, ?_, ?_⟩
      · rw [he]
        by_cases hc : 0 < timeout ∧ timeout < now - s.last_activity
        · rw [if_pos hc]
          simp only [Option.isSome_none, Bool.false_eq_true, false_iff]
          rintro ⟨s2, hs2, hcond⟩
          injection hs2 with hss
          subst hss
          rcases hcond with hcond | hcond
          · exact absurd hcond (not_le.mpr hc.1)
          · exact absurd hcond (not_le.mpr hc.2)
        · rw [if_neg hc]
          simp only [Option.isSome_some, true_iff]
          refine ⟨s, rfl, ?_⟩
          push_neg at hc
          by_cases h0 : 0 < timeout
          · exact Or.inr (hc h0)
          · exact Or.inl (not_lt.mp h0)
      · intro s2 hs2 hcond
        injection hs2 with hss
        subst hss
        have hnc : ¬ (0 < timeout ∧ timeout < now - s.last_activity) := by
          rcases hcond with hcond | hcond
          · exact fun hx => absurd hcond (not_le.mpr hx.1)
          · exact fun hx => absurd hcond (not_le.mpr hx.2)
        rw [he, if_neg hnc]
        refine ⟨rfl, ?_⟩
        exact alookup_map_update sid _ sessions (by rw [hl]; rfl)
      · intro s2 hs2 h0 hexp
        injection hs2 with hss
        subst hss
        rw [he, if_pos ⟨h0, hexp⟩]
        exact ⟨rfl, alookup_filter_ne sid sessions⟩
      · intro hs
        exact Option.noConfusion hs

/-- A concrete session used by the C5 witness. -/
def sampleSession : Session :=
  { session_id := "sid-a", username := "alice", ip_address := "127.0.0.1",
    created_at := 0, last_activity := 0, generation_count := 0 }

/-- Witness for C5: with a 60-second timeout, validating the known id 30
seconds after its last activity returns the session with `last_activity`
slid forward to 30. -/
theorem validate_session_spec_witness :
    (SessionManager.validate_session 60
        [ ("sid-a", sampleSession) ] "sid-a" 30).1 =
      some { sampleSession with last_activity := 30 } :=
  ((validate_session_spec 60 [ ("sid-a", sampleSession) ] "sid-a" 30
      (by decide)).2.1 sampleSession (by decide)
      (Or.inr (by norm_num [sampleSession]))).1

/-- Python's `int()` on a rational: truncation toward zero. -/
def pyInt (q : ℚ) : ℤ := if 0 ≤ q then ⌊q⌋ else -⌊-q⌋

/-- Embedding of `RateLimiter.is_allowed` for one identity.  The stored
timestamp list for the identity is `reqs` (a missing identity is the empty
list, as with `defaultdict`); `now` is `time.time()`.  Returns the
`(is_allowed, remaining)` pair and the stored list after the call. -/
def RateLimiter.is_allowed (max_requests : Nat) (window_seconds : ℚ)
    (reqs : List ℚ) (now : ℚ) : (Bool × ℤ) × List ℚ :=
  let window_start := now - window_seconds
  let pruned := reqs.filter (fun t => decide (window_start < t))
  let current_count := pruned.length
  let remaining : ℤ := (max_requests : ℤ) - current_count
  if max_requests ≤ current_count then ((false, 0), pruned)
  else ((true, remaining - 1), pruned ++ [ now ])

/-- Embedding of `RateLimiter.get_reset_time` for one identity: zero when
no timestamps are stored, otherwise the clamped age-out time of the
minimum stored timestamp (`min` over the Python list). -/
def RateLimiter.get_reset_time (window_seconds : ℚ) (reqs : List ℚ)
    (now : ℚ) : ℚ :=
  match reqs with
  | [] => 0
  | t :: ts => max 0 (ts.foldl min t + window_seconds - now)

/-- Result of `GenerationLimiter.can_generate`: the allowed flag, the
remaining count, and — on denial — the retry-after minute count
interpolated into the message. -/
structure QuotaResult where
  allowed : Bool
  remaining : Nat
  retryAfterMinutes : Option ℤ
deriving DecidableEq, Repr

/-- Embedding of `GenerationLimiter.can_generate` for one identity.
Returns `none` exactly when the source would raise `IndexError`
(`self._generations[identifier][0]` on an empty pruned list, reachable
only with `max_generations = 0`), and pairs the result with the stored
list after the call.  Note: no timestamp is appended — recording happens
only in the separate `record_generation`. -/
def GenerationLimiter.can_generate (max_generations : Nat)
    (window_seconds : ℚ) (gens : List ℚ) (now : ℚ) :
    Option QuotaResult × List ℚ :=
  let window_start := now - window_seconds
  let pruned := gens.filter (fun t => decide (window_start < t))
  let current_count := pruned.length
  if max_generations ≤ current_count then
    match pruned.head? with
    | none => (none, pruned)
    | some t0 =>
      let reset_seconds := t0 + window_seconds - now
      let reset_minutes := pyInt (reset_seconds / 60) + 1
      (some ⟨false, 0, some reset_minutes⟩, pruned)
  else
    (some ⟨true, max_generations - current_count, none⟩, pruned)

/-- Embedding of `GenerationLimiter.record_generation` for one identity:
appends the current time to the stored list. -/
def GenerationLimiter.record_generation (gens : List ℚ) (now : ℚ) :
    List ℚ :=
  gens ++ [ now ]

/-- Counterexample to C6 as stated: with `max_events = 1`, two successive
`GenerationLimiter.can_generate` checks for the same identity within the
window both allow with full remaining count — an allowed check records no
event, so the (N+1)-th check is not denied.  The RateWindow engine
(`RateLimiter.is_allowed`) under the same sequence records the first call
and denies the second. -/
theorem quota_check_records_counterexample :
    (GenerationLimiter.can_generate 1 3600 [] 0).1 =
        some ⟨true, 1, none⟩ ∧
    (GenerationLimiter.can_generate 1 3600
        (GenerationLimiter.can_generate 1 3600 [] 0).2 1).1 =
      some ⟨true, 1, none⟩ ∧
    (RateLimiter.is_allowed 1 3600 [] 0).1 = (true, 0) ∧
    (RateLimiter.is_allowed 1 3600
        (RateLimiter.is_allowed 1 3600 [] 0).2 1).1 = (false, 0) := by
  refine ⟨?_, ?_, ?_, ?_⟩ <;>
    norm_num [GenerationLimiter.can_generate, RateLimiter.is_allowed]

/-- C6 (amended): `GenerationLimiter.can_generate` differs from the
RateWindow engine in recording: it only prunes and never records — the
stored list after any check is exactly the pruned list, an allowed check
returns remaining = `max_events − live_count` (not one less), and denial
(with remaining 0) occurs exactly when at least `max_events` events — put
there by the separate `record_generation` operation — are live; the
RateWindow engine `RateLimiter.is_allowed` by contrast appends `now` on
every allowed call. -/
theorem quota_check_record_split_spec (N : Nat) (w : ℚ) (gens : List ℚ)
    (now : ℚ) :
    ((GenerationLimiter.can_generate N w gens now).2 =
      gens.filter (fun t => decide (now - w < t))) ∧
    ((gens.filter (fun t => decide (now - w < t))).length < N →
      (GenerationLimiter.can_generate N w gens now).1 =
        some ⟨true, N - (gens.filter
          (fun t => decide (now - w < t))).length, none⟩) ∧
    (1 ≤ N → N ≤ (gens.filter (fun t => decide (now - w < t))).length →
      ∃ m, (GenerationLimiter.can_generate N w gens now).1 =
        some ⟨false, 0, some m⟩) ∧
    (GenerationLimiter.record_generation gens now = gens ++ [ now ]) ∧
    ((gens.filter (fun t => decide (now - w < t))).length < N →
      (RateLimiter.is_allowed N w gens now).2 =
        gens.filter (fun t => decide (now - w < t)) ++ [ now ]) := by
  refine ⟨?_, ?_, ?_, rfl, ?_⟩
  · unfold GenerationLimiter.can_generate
    dsimp only
    split
    · split
      · rfl
      · rfl
    · rfl
  · intro h
    unfold GenerationLimiter.can_generate
    dsimp only
    rw [if_neg (not_le.mpr h)]
  · intro hN h
    unfold GenerationLimiter.can_generate
    dsimp only
    rw [if_pos h]
    have hne : gens.filter (fun t => decide (now - w < t)) ≠ [] := by
      intro hnil
      rw [hnil] at h
      simp at h
      omega
    cases hh : (gens.filter (fun t => decide (now - w < t))).head? with
    | none => exact absurd (List.head?_eq_none_iff.mp hh) hne
    | some t0 => exact ⟨pyInt ((t0 + w - now) / 60) + 1, rfl⟩
  · intro h
    unfold RateLimiter.is_allowed
    dsimp only
    rw [if_neg (not_le.mpr h)]

/-- Witness for C6 (amended): one recorded generation at time 100 inside a
one-hour window makes the next check (cap 1) deny, while the check itself
leaves the stored list untouched. -/
theorem quota_check_record_split_spec_witness :
    (GenerationLimiter.can_generate 1 3600
        (GenerationLimiter.record_generation [] 100) 200).2 = [ 100 ] ∧
    (∃ m, (GenerationLimiter.can_generate 1 3600
        (GenerationLimiter.record_generation [] 100) 200).1 =
      some ⟨false, 0, some m⟩) :=
  ⟨by
    have h := (quota_check_record_split_spec 1 3600
      (GenerationLimiter.record_generation [] 100) 200).1
    rw [h]
    norm_num [GenerationLimiter.record_generation],
   (quota_check_record_split_spec 1 3600
      (GenerationLimiter.record_generation [] 100) 200).2.2.1
     (le_refl 1)
     (by norm_num [GenerationLimiter.record_generation])⟩

/-- `min` folded over a list bounds every element of the fold from
below. -/
theorem foldl_min_le (ts : List ℚ) (t : ℚ) :
    ∀ x ∈ t :: ts, ts.foldl min t ≤ x := by
  induction ts generalizing t with
  | nil =>
    intro x hx
    rw [List.mem_singleton] at hx
    subst hx
    exact le_refl x
  | cons a as ih =>
    intro x hx
    rw [List.foldl_cons]
    rcases List.mem_cons.mp hx with hx | hx
    · subst hx
      exact le_trans (ih (min x a) _ (List.mem_cons_self _ _))
        (min_le_left x a)
    · rcases List.mem_cons.mp hx with hx | hx
      · subst hx
        exact le_trans (ih (min t x) _ (List.mem_cons_self _ _))
          (min_le_right t x)
      · exact ih (min t a) x (List.mem_cons_of_mem _ hx)

/-- `min` folded over a list is one of the candidates. -/
theorem foldl_min_mem (ts : List ℚ) (t : ℚ) :
    ts.foldl min t ∈ t :: ts := by
  induction ts generalizing t with
  | nil => exact List.mem_singleton.mpr rfl
  | cons a as ih =>
    rw [List.foldl_cons]
    rcases List.mem_cons.mp (ih (min t a)) with hx | hx
    · rcases min_choice t a with hm | hm
      · rw [hx, hm]
        exact List.mem_cons_self _ _
      · rw [hx, hm]
        exact List.mem_cons_of_mem _ (List.mem_cons_self _ _)
    · exact List.mem_cons_of_mem _ (List.mem_cons_of_mem _ hx)

/-- Counterexample to C7 as stated: with window 60 and stored timestamps
`[10, 90]` at `now = 100`, the entry 90 is live and 10 is stale; the
oldest live event ages out after 50 seconds, yet `get_reset_time` returns
0, because it takes the minimum over all stored timestamps, stale ones
included. -/
theorem get_reset_time_live_counterexample :
    RateLimiter.get_reset_time 60 [ (10 : ℚ), 90 ] 100 = 0 ∧
    (100 : ℚ) - 60 < 90 ∧ (10 : ℚ) ≤ 100 - 60 ∧
    (90 : ℚ) + 60 - 100 = 50 ∧ (0 : ℚ) ≠ 50 := by
  refine ⟨?_, by norm_num, by norm_num, by norm_num, by norm_num⟩
  norm_num [RateLimiter.get_reset_time, min_def, max_def]

/-- C7 (amended): `get_reset_time` returns 0 for an empty stored list and
otherwise `max 0 (oldest stored timestamp + window − now)` — the clamped
age-out time of the oldest *stored* event; when the stored list is
nonempty and holds no stale entries (as right after pruning), this is the
strictly positive time until the oldest live event ages out. -/
theorem get_reset_time_spec (w : ℚ) (reqs : List ℚ) (now : ℚ) :
    (reqs = [] → RateLimiter.get_reset_time w reqs now = 0) ∧
    (∀ t ts, reqs = t :: ts →
      RateLimiter.get_reset_time w reqs now =
        max 0 (ts.foldl min t + w - now) ∧
      ((∀ x ∈ reqs, now - w < x) →
        RateLimiter.get_reset_time w reqs now =
          ts.foldl min t + w - now ∧
        0 < RateLimiter.get_reset_time w reqs now ∧
        ∀ x ∈ reqs, ts.foldl min t ≤ x)) := by
  constructor
  · intro h
    subst h
    rfl
  · intro t ts h
    subst h
    refine ⟨rfl, ?_⟩
    intro hlive
    have hmem := foldl_min_mem ts t
    have hpos : 0 < ts.foldl min t + w - now := by
      have := hlive _ hmem
      linarith
    have hres : RateLimiter.get_reset_time w (t :: ts) now =
        ts.foldl min t + w - now := by
      unfold RateLimiter.get_reset_time
      exact max_eq_right (le_of_lt hpos)
    refine ⟨hres, ?_, foldl_min_le ts t⟩
    rw [hres]
    exact hpos

/-- Witness for C7 (amended): a single live timestamp 90 in a 60-second
window at `now = 100` yields reset time 50, positive. -/
theorem get_reset_time_spec_witness :
    RateLimiter.get_reset_time 60 [ (90 : ℚ) ] 100 = 90 + 60 - 100 ∧
    0 < RateLimiter.get_reset_time 60 [ (90 : ℚ) ] 100 :=
  ⟨(((get_reset_time_spec 60 [ (90 : ℚ) ] 100).2 90 [] rfl).2
      (by
        intro x hx
        rw [List.mem_singleton] at hx
        subst hx
        norm_num)).1,
   (((get_reset_time_spec 60 [ (90 : ℚ) ] 100).2 90 [] rfl).2
      (by
        intro x hx
        rw [List.mem_singleton] at hx
        subst hx
        norm_num)).2.1⟩

/-- Truncation toward zero of a nonnegative rational is nonnegative. -/
theorem pyInt_nonneg (q : ℚ) (h : 0 ≤ q) : 0 ≤ pyInt q := by
  unfold pyInt
  rw [if_pos h]
  exact Int.floor_nonneg.mpr h

/-- C8: whenever `GenerationLimiter.can_generate` denies (and returns
rather than raising), its denial message carries a strictly positive
retry-after minute count `int(reset_seconds / 60) + 1`, because the oldest
pruned event is within the window, making `reset_seconds` positive. -/
theorem quota_denial_retry_minutes_positive (N : Nat) (w : ℚ)
    (gens : List ℚ) (now : ℚ) (q : QuotaResult)
    (h : (GenerationLimiter.can_generate N w gens now).1 = some q)
    (hd : q.allowed = false) :
    ∃ m, q.retryAfterMinutes = some m ∧ 0 < m := by
  unfold GenerationLimiter.can_generate at h
  dsimp only at h
  by_cases hc : N ≤ (gens.filter (fun t => decide (now - w < t))).length
  · rw [if_pos hc] at h
    cases hh : (gens.filter (fun t => decide (now - w < t))).head? with
    | none =>
      rw [hh] at h
      exact Option.noConfusion h
    | some t0 =>
      rw [hh] at h
      injection h with h
      subst h
      refine ⟨pyInt ((t0 + w - now) / 60) + 1, rfl, ?_⟩
      have hmem : t0 ∈ gens.filter (fun t => decide (now - w < t)) :=
        List.mem_of_mem_head? (Option.mem_def.mpr hh)
      have ht0 : now - w < t0 := by
        have := List.of_mem_filter hmem
        simpa using this
      have hq : (0 : ℚ) ≤ (t0 + w - now) / 60 := by
        have : (0 : ℚ) < t0 + w - now := by linarith
        positivity
      have := pyInt_nonneg _ hq
      omega
  · rw [if_neg hc] at h
    injection h with h
    subst h
    exact Bool.noConfusion hd

/-- Witness for C8: at the cap 1 with one live event at time 100, a check
at time 200 in a one-hour window denies with retry-after 59 minutes
(⌊3500 / 60⌋ + 1), which is positive. -/
theorem quota_denial_retry_minutes_positive_witness :
    ∃ m, (QuotaResult.retryAfterMinutes ⟨false, 0, some 59⟩) = some m ∧
      0 < m :=
  quota_denial_retry_minutes_positive 1 3600 [ 100 ] 200
    ⟨false, 0, some 59⟩
    (by norm_num [GenerationLimiter.can_generate, pyInt]) rfl

/-- Structured denial/allowance reasons of
`SecurityManager.check_ip_access`, one constructor per returned
message. -/
inductive IpReason
| blocked
| localOnly
| notAllowedList
| ok
deriving DecidableEq, Repr

/-- The loopback addresses accepted in localhost-only mode. -/
def loopbackIps : List String := [ "127.0.0.1" , "localhost" , "::1" ]

/-- Python's `str.strip()` with no argument: remove leading and trailing
whitespace. -/
def pyStrip (s : String) : String :=
  ⟨((s.data.dropWhile Char.isWhitespace).reverse.dropWhile
      Char.isWhitespace).reverse⟩

/-- Embedding of `SecurityManager.check_ip_access`.  The configuration's
allow and block sets are lists (membership is all that matters); the
source normalizes the address with `str.strip`, embedded as `pyStrip`. -/
def SecurityManager.check_ip_access (localhost_only : Bool)
    (allowed_ips blocked_ips : List String) (ip_address : String) :
    Bool × IpReason :=
  let ip := pyStrip ip_address
  if ip ∈ blocked_ips then (false, IpReason.blocked)
  else if localhost_only = true ∧ ip ∉ loopbackIps then
    (false, IpReason.localOnly)
  else if allowed_ips ≠ [] ∧ ip ∉ allowed_ips then
    (false, IpReason.notAllowedList)
  else (true, IpReason.ok)

/-- C9: `check_ip_access` denies a block-listed address first — even one
also on the allow-list — then denies non-loopback addresses in
localhost-only mode, then denies addresses absent from a non-empty
allow-list, and otherwise allows. -/
theorem check_ip_access_spec (localhost_only : Bool)
    (allowed_ips blocked_ips : List String) (ip_address : String) :
    (pyStrip ip_address ∈ blocked_ips →
      SecurityManager.check_ip_access localhost_only allowed_ips
        blocked_ips ip_address = (false, IpReason.blocked)) ∧
    (pyStrip ip_address ∉ blocked_ips → localhost_only = true →
      pyStrip ip_address ∉ loopbackIps →
      SecurityManager.check_ip_access localhost_only allowed_ips
        blocked_ips ip_address = (false, IpReason.localOnly)) ∧
    (pyStrip ip_address ∉ blocked_ips →
      (localhost_only = false ∨ pyStrip ip_address ∈ loopbackIps) →
      allowed_ips ≠ [] → pyStrip ip_address ∉ allowed_ips →
      SecurityManager.check_ip_access localhost_only allowed_ips
        blocked_ips ip_address = (false, IpReason.notAllowedList)) ∧
    (pyStrip ip_address ∉ blocked_ips →
      (localhost_only = false ∨ pyStrip ip_address ∈ loopbackIps) →
      (allowed_ips = [] ∨ pyStrip ip_address ∈ allowed_ips) →
      SecurityManager.check_ip_access localhost_only allowed_ips
        blocked_ips ip_address = (true, IpReason.ok)) := by
  unfold SecurityManager.check_ip_access
  dsimp only
  have hloNeg : (localhost_only = false ∨
      pyStrip ip_address ∈ loopbackIps) →
      ¬ (localhost_only = true ∧ pyStrip ip_address ∉ loopbackIps) := by
    rintro (hlo | hlo) ⟨h1, h2⟩
    · rw [hlo] at h1
      exact Bool.noConfusion h1
    · exact h2 hlo
  refine ⟨?_, ?_, ?_, ?_⟩
  · intro hb
    rw [if_pos hb]
  · intro hb hlo hloop
    rw [if_neg hb, if_pos ⟨hlo, hloop⟩]
  · intro hb hlo hne hna
    rw [if_neg hb, if_neg (hloNeg hlo), if_pos ⟨hne, hna⟩]
  · intro hb hlo hal
    have halNeg : ¬ (allowed_ips ≠ [] ∧
        pyStrip ip_address ∉ allowed_ips) := by
      rintro ⟨h1, h2⟩
      rcases hal with hal | hal
      · exact h1 hal
      · exact h2 hal
    rw [if_neg hb, if_neg (hloNeg hlo), if_neg halNeg]

/-- Witness for C9: an address on both lists is denied as blocked
(block-list precedence); a non-loopback address in localhost-only mode is
denied; a clean loopback address passes an empty allow-list. -/
theorem check_ip_access_spec_witness :
    SecurityManager.check_ip_access false [ "10.0.0.9" ] [ "10.0.0.9" ]
        "10.0.0.9" = (false, IpReason.blocked) ∧
    SecurityManager.check_ip_access true [] [] "10.0.0.9" =
      (false, IpReason.localOnly) ∧
    SecurityManager.check_ip_access true [] [] "127.0.0.1" =
      (true, IpReason.ok) :=
  ⟨(check_ip_access_spec false [ "10.0.0.9" ] [ "10.0.0.9" ]
      "10.0.0.9").1 (by decide),
   (check_ip_access_spec true [] [] "10.0.0.9").2.1 (by decide) rfl
     (by decide),
   (check_ip_access_spec true [] [] "127.0.0.1").2.2.2 (by decide)
     (Or.inr (by decide)) (Or.inl rfl)⟩

/-- The `"Bearer "` authorization marker stripped by `verify_api_key`. -/
def bearerStr : String := "Bearer "

/-- Python's `str.startswith`: the argument's characters lead the
string. -/
def pyStartsWith (s pre : String) : Bool :=
  pre.data.isPrefixOf s.data

/-- Python's `s[n:]` slice: drop the first `n` characters. -/
def pyDrop (s : String) (n : Nat) : String := ⟨s.data.drop n⟩

/-- Embedding of `SecurityManager.verify_api_key`.  `api_key` is the
configured key (`None` when unset; the empty string is equally falsy in
the source's test), `provided_key` the caller's header value;
`secrets.compare_digest` on strings is equality. -/
def SecurityManager.verify_api_key (api_key provided_key : Option String) :
    Bool :=
  match api_key with
  | none => true
  | some k =>
    if k = emptyStr then true
    else
      match provided_key with
      | none => false
      | some p =>
        if p = emptyStr then false
        else
          let p2 := if pyStartsWith p bearerStr then pyDrop p 7 else p
          p2 == k

/-- C10: with no API key configured (absent or empty), every caller —
including one providing nothing — is accepted; with a key configured, a
missing (absent or empty) provided key is rejected, and a nonempty
provided key is accepted exactly when it equals the configured key after
stripping an optional `"Bearer "` prefix. -/
theorem verify_api_key_spec (api_key provided_key : Option String) :
    ((api_key = none ∨ api_key = some emptyStr) →
      SecurityManager.verify_api_key api_key provided_key = true) ∧
    (∀ k, api_key = some k → k ≠ emptyStr →
      ((provided_key = none ∨ provided_key = some emptyStr) →
        SecurityManager.verify_api_key api_key provided_key = false) ∧
      (∀ p, provided_key = some p → p ≠ emptyStr →
        (SecurityManager.verify_api_key api_key provided_key = true ↔
          (if pyStartsWith p bearerStr then pyDrop p 7 else p) = k))) := by
  constructor
  · rintro (h | h) <;> subst h
    · rfl
    · unfold SecurityManager.verify_api_key
      dsimp only
      rw [if_pos rfl]
  · intro k hk hkne
    subst hk
    constructor
    · rintro (h | h) <;> subst h
      · unfold SecurityManager.verify_api_key
        dsimp only
        rw [if_neg hkne]
      · unfold SecurityManager.verify_api_key
        dsimp only
        rw [if_neg hkne, if_pos rfl]
    · intro p hp hpne
      subst hp
      unfold SecurityManager.verify_api_key
      dsimp only
      rw [if_neg hkne, if_neg hpne]
      exact beq_iff_eq

/-- Witness for C10: with configured key `"secret"`, the header
`"Bearer secret"` is accepted. -/
theorem verify_api_key_spec_witness :
    SecurityManager.verify_api_key (some "secret")
      (some "Bearer secret") = true :=
  (((verify_api_key_spec (some "secret") (some "Bearer secret")).2
      "secret" rfl (by decide)).2 "Bearer secret" rfl
      (by decide)).mpr (by decide)

end ACEStep
